import Mathlib

/-!
Verification model of the beszel agent's GPU data-collection engine
(`internal/agent/gpu.go`). Go `float64` values are modelled as exact
rationals `ℚ`; machine strings are Lean `String`s manipulated through
character lists. Each definition is a direct translation of the
corresponding Go function; the few pieces of the repository that are not
part of the provided sources (`system.GPUData`, `twoDecimals`,
`bytesToMegabytes`) are modelled from the specification and marked as
such in their doc comments.
-/

namespace Beszel

/-! ### Go string primitives -/

/-- Match a literal character sequence at the front of `cs`; on success
return the remaining characters (models a literal prefix test). -/
def litMatch : List Char → List Char → Option (List Char)
  | [], cs => some cs
  | _, [] => none
  | p :: ps, c :: cs => if c = p then litMatch ps cs else none

/-- Worker for `goSplit`: scans left to right, emitting a field each time
the (non-empty) separator occurs, exactly like Go `strings.Split`. The
fuel argument only bounds recursion; it is always at least the number of
remaining characters plus one, so it never runs out. -/
def splitLoop (sep : List Char) : Nat → List Char → List Char → List (List Char)
  | 0, cur, _ => [cur.reverse]
  | _ + 1, cur, [] => [cur.reverse]
  | fuel + 1, cur, c :: rest =>
    match litMatch sep (c :: rest) with
    | some rem => cur.reverse :: splitLoop sep fuel [] rem
    | none => splitLoop sep fuel (c :: cur) rest

/-- Go `strings.Split(s, sep)` for a non-empty separator (the only use in
the source: separators `", "` and line splitting). -/
def goSplit (s sep : String) : List String :=
  if sep.toList = [] then [s]
  else (splitLoop sep.toList (s.toList.length + 1) [] s.toList).map String.mk

/-- Whitespace recognizer used by `goTrimSpace` (the ASCII fragment of
Go's `unicode.IsSpace`, sufficient for tool output). -/
def isSpaceChar (c : Char) : Bool :=
  c = ' ' || c = '\t' || c = '\n' || c = '\r' || c = '\x0b' || c = '\x0c'

/-- Go `strings.TrimSpace`. -/
def goTrimSpace (s : String) : String :=
  String.mk (((s.toList.dropWhile isSpaceChar).reverse.dropWhile isSpaceChar).reverse)

/-- Go `strings.TrimPrefix s p`. -/
def trimLead (s p : String) : String :=
  match litMatch p.toList s.toList with
  | some rest => String.mk rest
  | none => s

/-- Go `strings.TrimSuffix s p`. -/
def trimTrail (s p : String) : String :=
  match litMatch p.toList.reverse s.toList.reverse with
  | some rest => String.mk rest.reverse
  | none => s

/-- Numeric value of a digit string (`natOfDigits`). -/
def natOfDigits (cs : List Char) : Nat :=
  cs.foldl (fun n c => 10 * n + (c.toNat - 48)) 0

/-- Go `strconv.ParseFloat` restricted to the plain decimal forms the GPU
tools emit (`-?digits`, `digits.digits`, `.digits`, `digits.`); on a
syntax error the Go callers discard the error and use the returned zero
value, so this function returns `0` there. -/
def parseFloat (s : String) : ℚ :=
  let cs := s.toList
  let signAndRest : ℚ × List Char :=
    match cs with
    | '-' :: r => (-1, r)
    | '+' :: r => (1, r)
    | r => (1, r)
  let sign := signAndRest.1
  let body := signAndRest.2
  let intPart := body.takeWhile Char.isDigit
  let rest := body.drop intPart.length
  match rest with
  | [] => if intPart.isEmpty then 0 else sign * (natOfDigits intPart : ℚ)
  | '.' :: frac =>
    if frac.all Char.isDigit && !(intPart.isEmpty && frac.isEmpty) then
      sign * ((natOfDigits intPart : ℚ) + (natOfDigits frac : ℚ) / (10 ^ frac.length))
    else 0
  | _ => 0

/-! ### Constants and unit conversions (source lines 20–42) -/

/-- `mebibytesInAMegabyte = 1.024`: nvidia-smi reports memory in MiB. -/
def mebibytesInAMegabyte : ℚ := 1.024

/-- `milliwattsInAWatt = 1000.0`: tegrastats reports power in mW. -/
def milliwattsInAWatt : ℚ := 1000

/-- Modelled from the spec: the repository's `twoDecimals` helper is not
among the provided sources; §4.4 requires every numeric output field to
be rounded to two decimal places, so it is the round-to-nearest at two
decimals. -/
def twoDecimals (value : ℚ) : ℚ := round (value * 100) / 100

/-- Modelled from the spec: the repository's `bytesToMegabytes` helper is
not among the provided sources; §3 specifies bytes→MB via ÷1,000,000. -/
def bytesToMegabytes (b : ℚ) : ℚ := b / 1000000

/-! ### Data model -/

/-- Modelled from the spec: `system.GPUData` is declared in a repository
file outside the provided sources. Fields follow §3 (DeviceSample) and
the field names used throughout the source: vendor name, last-observed
temperature and memory figures, accumulating `Usage`/`Power` sums, and
the integer sample counter `Count` (§3: "integer divisor for
averaging"). -/
@[ext] structure GPUData where
  Name : String
  Temperature : ℚ
  MemoryUsed : ℚ
  MemoryTotal : ℚ
  Usage : ℚ
  Power : ℚ
  Count : Nat
  deriving DecidableEq

/-- The Go zero value `&system.GPUData{Name: name}` used at entry
creation. -/
def newGPU (name : String) : GPUData :=
  { Name := name, Temperature := 0, MemoryUsed := 0, MemoryTotal := 0
    Usage := 0, Power := 0, Count := 0 }

/-- `GpuDataMap`: the registry `map[string]*system.GPUData`, modelled as
an association list (iteration order of a Go map is irrelevant to every
operation performed on it: per-entry updates and name counting). -/
abbrev GpuDataMap := List (String × GPUData)

/-- Go map read `gm.GpuDataMap[id]`. -/
def mapLookup : GpuDataMap → String → Option GPUData
  | [], _ => none
  | p :: ps, id => if p.1 = id then some p.2 else mapLookup ps id

/-- In-place mutation through the stored pointer: apply `f` to the entry
with key `id` (keys are unique in a Go map, so mapping over all matching
positions is the same operation). -/
def mapUpdate (id : String) (f : GPUData → GPUData) (m : GpuDataMap) : GpuDataMap :=
  m.map (fun p => if p.1 = id then (p.1, f p.2) else p)

/-! ### nvidia-smi parsing (source lines 184–224) -/

/-- "update gpu data" block of `parseNvidiaData` (source lines 214–221):
overwrite temperature and unit-converted memory, accumulate usage and
power, increment the sample counter. -/
def applyNvidiaSample (temp memoryUsage totalMemory usage power : ℚ) (gpu : GPUData) : GPUData :=
  { gpu with
    Temperature := temp
    MemoryUsed := memoryUsage / mebibytesInAMegabyte
    MemoryTotal := totalMemory / mebibytesInAMegabyte
    Usage := gpu.Usage + usage
    Power := gpu.Power + power
    Count := gpu.Count + 1 }

/-- Name cleanup at entry creation (source lines 205–206). -/
def cleanNvidiaName (raw : String) : String :=
  trimTrail (trimLead raw "NVIDIA ") " Laptop GPU"

/-- Scanner loop of `parseNvidiaData` (source lines 190–222). `valid`
carries the `var valid bool` flag; a line with fewer than 7 fields is
skipped; a brand-new device id is inserted name-only and, when the
tegrastats collector is active, the function returns `false`
immediately; otherwise the entry is updated with the sampled values. -/
def parseNvidiaLines (tegrastats : Bool) : GpuDataMap → Bool → List String → Bool × GpuDataMap
  | m, valid, [] => (valid, m)
  | m, valid, line :: rest =>
    let fields := goSplit (goTrimSpace line) ", "
    if fields.length < 7 then parseNvidiaLines tegrastats m valid rest
    else
      let id := fields.getD 0 ""
      let temp := parseFloat (fields.getD 2 "")
      let memoryUsage := parseFloat (fields.getD 3 "")
      let totalMemory := parseFloat (fields.getD 4 "")
      let usage := parseFloat (fields.getD 5 "")
      let power := parseFloat (fields.getD 6 "")
      match mapLookup m id with
      | none =>
        let m1 := m ++ [(id, newGPU (cleanNvidiaName (fields.getD 1 "")))]
        if tegrastats then (false, m1)
        else
          parseNvidiaLines tegrastats
            (mapUpdate id (applyNvidiaSample temp memoryUsage totalMemory usage power) m1)
            true rest
      | some _ =>
        parseNvidiaLines tegrastats
          (mapUpdate id (applyNvidiaSample temp memoryUsage totalMemory usage power) m)
          true rest

/-- `GPUManager.parseNvidiaData`: split the raw output into lines and run
the scanner loop; `tegrastats` is the manager flag consulted at entry
creation. -/
def parseNvidiaData (tegrastats : Bool) (m : GpuDataMap) (output : String) : Bool × GpuDataMap :=
  parseNvidiaLines tegrastats m false (goSplit output "\n")

/-! ### tegrastats parsing (source lines 138–182)

The four precompiled patterns of `getJetsonParser` are simple enough that
leftmost matching is implemented directly: `scanFirst` tries every start
position left to right, mirroring `regexp.FindSubmatch`. -/

/-- Try a matcher at every suffix, left to right (leftmost match). -/
def scanFirst (f : List Char → Option α) : List Char → Option α
  | [] => f []
  | c :: cs =>
    match f (c :: cs) with
    | some r => some r
    | none => scanFirst f cs

/-- One or more digits (`\d+`): the captured digits and the rest. -/
def digits1 (cs : List Char) : Option (List Char × List Char) :=
  let d := cs.takeWhile Char.isDigit
  if d.isEmpty then none else some (d, cs.drop d.length)

/-- `RAM (\d+)/(\d+)MB` anchored at the current position. -/
def matchRam (cs : List Char) : Option (String × String) := do
  let cs ← litMatch "RAM ".toList cs
  let (d1, cs) ← digits1 cs
  let cs ← litMatch "/".toList cs
  let (d2, cs) ← digits1 cs
  let _ ← litMatch "MB".toList cs
  pure (String.mk d1, String.mk d2)

/-- `GR3D_FREQ (\d+)%` anchored at the current position. -/
def matchGr3d (cs : List Char) : Option String := do
  let cs ← litMatch "GR3D_FREQ ".toList cs
  let (d, cs) ← digits1 cs
  let _ ← litMatch "%".toList cs
  pure (String.mk d)

/-- `tj@(\d+\.?\d*)C` anchored at the current position; the optional dot
can only succeed by consuming the dot (the following character `.` is
not `C`), matching the regex's backtracking behaviour. -/
def matchTemp (cs : List Char) : Option String := do
  let cs ← litMatch "tj@".toList cs
  let (d, cs) ← digits1 cs
  match cs with
  | '.' :: rest =>
    let f := rest.takeWhile Char.isDigit
    let _ ← litMatch "C".toList (rest.drop f.length)
    pure (String.mk (d ++ ['.'] ++ f))
  | other => do
    let _ ← litMatch "C".toList other
    pure (String.mk d)

/-- `(GPU_SOC|CPU_GPU_CV) (\d+)mW` anchored at the current position; the
second capture group (the milliwatt digits) is returned. -/
def matchPower (cs : List Char) : Option String :=
  let attempt := fun (tag : String) => do
    let rest ← litMatch tag.toList cs
    let rest ← litMatch " ".toList rest
    let (d, rest2) ← digits1 rest
    let _ ← litMatch "mW".toList rest2
    pure (String.mk d)
  attempt "GPU_SOC" <|> attempt "CPU_GPU_CV"

/-- Body of the tegrastats update (source lines 157–179), applied to the
entry for id "0": each pattern that matched updates its fields, and the
sample counter is incremented. -/
def jetsonUpdate (ramMatches : Option (String × String))
    (gr3dMatches tempMatches powerMatches : Option String) (gpuData : GPUData) : GPUData :=
  let gpuData := match ramMatches with
    | some (a, b) => { gpuData with MemoryUsed := parseFloat a, MemoryTotal := parseFloat b }
    | none => gpuData
  let gpuData := match gr3dMatches with
    | some v => { gpuData with Usage := gpuData.Usage + parseFloat v }
    | none => gpuData
  let gpuData := match tempMatches with
    | some v => { gpuData with Temperature := parseFloat v }
    | none => gpuData
  let gpuData := match powerMatches with
    | some v => { gpuData with Power := gpuData.Power + parseFloat v / milliwattsInAWatt }
    | none => gpuData
  { gpuData with Count := gpuData.Count + 1 }

/-- The closure returned by `GPUManager.getJetsonParser` (source lines
148–181): operates only on device id "0"; if that entry does not exist
yet the line is a no-op success; otherwise the four patterns are matched
against the line and the entry updated. -/
def jetsonParse (m : GpuDataMap) (output : String) : Bool × GpuDataMap :=
  match mapLookup m "0" with
  | none => (true, m)
  | some _ =>
    let cs := output.toList
    (true, mapUpdate "0"
      (jetsonUpdate (scanFirst matchRam cs) (scanFirst matchGr3d cs)
        (scanFirst matchTemp cs) (scanFirst matchPower cs)) m)

/-! ### rocm-smi parsing (source lines 54–64, 226–257) -/

/-- `RocmSmiJson`: the per-device record decoded from rocm-smi's JSON
output; all numeric fields are tool-emitted strings. -/
structure RocmSmiJson where
  ID : String
  Name : String
  Temperature : String
  MemoryUsed : String
  MemoryTotal : String
  Usage : String
  PowerPackage : String
  PowerSocket : String
  deriving DecidableEq

/-- Loop body of `parseAmdData` (source lines 234–255). -/
def applyAmdSample (v : RocmSmiJson) (m : GpuDataMap) : GpuDataMap :=
  let power := if v.PowerPackage ≠ "" then parseFloat v.PowerPackage else parseFloat v.PowerSocket
  let memoryUsage := parseFloat v.MemoryUsed
  let totalMemory := parseFloat v.MemoryTotal
  let usage := parseFloat v.Usage
  let m1 := match mapLookup m v.ID with
    | none => m ++ [(v.ID, newGPU v.Name)]
    | some _ => m
  mapUpdate v.ID (fun gpu =>
    { gpu with
      Temperature := parseFloat v.Temperature
      MemoryUsed := bytesToMegabytes memoryUsage
      MemoryTotal := bytesToMegabytes totalMemory
      Usage := gpu.Usage + usage
      Power := gpu.Power + power
      Count := gpu.Count + 1 }) m1

/-- `GPUManager.parseAmdData`. `json.Unmarshal` is external library code;
its outcome is the input here: `none` models a decode error, `some l`
the decoded map (Go map iteration order is irrelevant: each record only
touches its own device id, and the entries of the decoded top-level map
are its values in some order). A decode error or an empty map returns
`false` before any mutation. -/
def parseAmdData (decoded : Option (List RocmSmiJson)) (m : GpuDataMap) : Bool × GpuDataMap :=
  match decoded with
  | none => (false, m)
  | some rocmSmiInfo =>
    if rocmSmiInfo.length = 0 then (false, m)
    else (true, rocmSmiInfo.foldl (fun acc v => applyAmdSample v acc) m)

/-! ### intel-gpu-top parsing (source lines 259–352) -/

/-- The `power` object of `IntelGpuTopJson` (fields `GPU` and `Package`;
the unused `unit` string is omitted). -/
structure IntelPower where
  GPU : ℚ
  Package : ℚ
  deriving DecidableEq

/-- One engine object of `IntelGpuTopJson` (its `busy` percentage; the
unused `unit` string is omitted). -/
structure IntelEngine where
  Busy : ℚ
  deriving DecidableEq

/-- The `engines` object of `IntelGpuTopJson`. -/
structure IntelEngines where
  Render3D : IntelEngine
  Blitter : IntelEngine
  Video : IntelEngine
  VideoEnhance : IntelEngine
  deriving DecidableEq

/-- `IntelGpuTopJson`: the single fixed-shape object decoded from
intel-gpu-top's JSON output. -/
structure IntelGpuTopJson where
  Power : IntelPower
  Engines : IntelEngines
  deriving DecidableEq

/-- `GPUManager.parseIntelGpuTopData` (source lines 312–352). As with the
rocm parser, `json.Unmarshal` is external library code and its outcome is
the `decoded` input (`none` models a decode error, which returns `false`
before any mutation). `gm.getIntelGpuName()` runs a separate one-shot
subprocess (source lines 287–309); its result — the extracted name, or
the "Intel GPU" fallback — is the `intelGpuName` input. The single
implicit device id is "0": a missing entry is created name-only, the four
engine busy figures are summed into one usage sample, the greater of the
GPU and Package power figures is the power sample, and the sample counter
is incremented. -/
def parseIntelGpuTopData (decoded : Option IntelGpuTopJson) (intelGpuName : String)
    (m : GpuDataMap) : Bool × GpuDataMap :=
  match decoded with
  | none => (false, m)
  | some intelGpuInfo =>
    let id := "0"
    let m1 := match mapLookup m id with
      | none => m ++ [(id, newGPU intelGpuName)]
      | some _ => m
    let totalUsage := intelGpuInfo.Engines.Render3D.Busy + intelGpuInfo.Engines.Blitter.Busy +
      intelGpuInfo.Engines.Video.Busy + intelGpuInfo.Engines.VideoEnhance.Busy
    let power := if intelGpuInfo.Power.Package > intelGpuInfo.Power.GPU
      then intelGpuInfo.Power.Package else intelGpuInfo.Power.GPU
    (true, mapUpdate id (fun gpu =>
      { gpu with
        Usage := gpu.Usage + totalUsage
        Power := gpu.Power + power
        Count := gpu.Count + 1 }) m1)

/-! ### snapshot / reset: `GetCurrentData` (source lines 354–386) -/

/-- The per-entry mutation in `GetCurrentData`'s loop (source lines
369–375): round the last-observed fields, replace the accumulated sums
with their two-decimal averages, and reset the sample counter to 1. -/
def gpuAverage (gpu : GPUData) : GPUData :=
  { gpu with
    Temperature := twoDecimals gpu.Temperature
    MemoryUsed := twoDecimals gpu.MemoryUsed
    MemoryTotal := twoDecimals gpu.MemoryTotal
    Usage := twoDecimals (gpu.Usage / (gpu.Count : ℚ))
    Power := twoDecimals (gpu.Power / (gpu.Count : ℚ))
    Count := 1 }

/-- `nameCounts[n]` (source lines 360–363): how many registry entries
report the name `n`. -/
def countName (m : GpuDataMap) (n : String) : Nat :=
  (m.filter (fun p => p.2.Name == n)).length

/-- `GPUManager.GetCurrentData`: first component is the returned copy
(with id appended to duplicated names), second is the registry as left
behind (averaged, reset, names untouched). -/
def GetCurrentData (m : GpuDataMap) : GpuDataMap × GpuDataMap :=
  (m.map (fun p =>
      (p.1,
        let gpuCopy := gpuAverage p.2
        if 1 < countName m p.2.Name then { gpuCopy with Name := p.2.Name ++ " " ++ p.1 }
        else gpuCopy)),
   m.map (fun p => (p.1, gpuAverage p.2)))

/-! ### collector lifecycle (source lines 66–136, 411–426) -/

/-- The error categories a collection pass can produce, plus `ok` for a
nil error: pipe/start failures, `errNoValidData`, a wrapped scanner
error, and a non-nil result of `cmd.Wait()`. -/
inductive CollectResult where
  | ok
  | spawnError
  | noValidData
  | streamError
  | exitError
  deriving DecidableEq

/-- Observable behaviour of one spawned subprocess: whether pipe
creation and `cmd.Start` succeed, the lines the scanner yields, whether
the scanner then reports a read error, and whether `cmd.Wait` returns
nil. -/
structure ProcOutput where
  startOk : Bool
  lines : List String
  scanErr : Bool
  waitOk : Bool
  deriving DecidableEq

/-- Scanner loop of `gpuCollector.collect` (source lines 125–135): feed
each line to the parser; a parser failure returns `errNoValidData` at
once (without reaching `cmd.Wait`); after the last line a scanner error
is checked, and only then is `cmd.Wait` invoked. The boolean in the
result records whether `cmd.Wait` was called on this return path. -/
def collectScan (parse : GpuDataMap → String → Bool × GpuDataMap) (proc : ProcOutput) :
    GpuDataMap → List String → CollectResult × GpuDataMap × Bool
  | m, [] =>
    if proc.scanErr then (.streamError, m, false)
    else ((if proc.waitOk then .ok else .exitError), m, true)
  | m, line :: rest =>
    let r := parse m line
    if r.1 then collectScan parse proc r.2 rest
    else (.noValidData, r.2, false)

/-- `gpuCollector.collect` for the line-framed tools (nvidia-smi,
tegrastats): spawn, then scan. A pipe/start failure happens before the
subprocess runs. -/
def collect (parse : GpuDataMap → String → Bool × GpuDataMap) (proc : ProcOutput)
    (m : GpuDataMap) : CollectResult × GpuDataMap × Bool :=
  if proc.startOk then collectScan parse proc m proc.lines
  else (.spawnError, m, false)

/-- What `gpuCollector.start` (source lines 77–90) does with one pass's
result: a nil error loops immediately, `errNoValidData` breaks out of
the loop for good, anything else sleeps `retryWaitTime` and retries. -/
inductive StartAction where
  | loopNow
  | terminate
  | sleepRetry
  deriving DecidableEq

/-- One iteration of the `start` loop. -/
def startStep : CollectResult → StartAction
  | .ok => .loopNow
  | .noValidData => .terminate
  | .spawnError => .sleepRetry
  | .streamError => .sleepRetry
  | .exitError => .sleepRetry

/-- Whether the `start` loop has terminated by the end of a finite trace
of pass results (it only ever stops at the first `noValidData`). -/
def startRun : List CollectResult → Bool
  | [] => false
  | r :: rs => if startStep r = .terminate then true else startRun rs

/-! ### Derived notions used to state the claims -/

/-- The field list the nvidia parser computes for one raw line
(`fields := strings.Split(strings.TrimSpace(line), ", ")`). -/
def lineFields (line : String) : List String := goSplit (goTrimSpace line) ", "

/-- The device id carried by a line (`fields[0]`). -/
def lineId (line : String) : String := (lineFields line).getD 0 ""

/-- The usage reading carried by a line (`fields[5]`). -/
def lineUsage (line : String) : ℚ := parseFloat ((lineFields line).getD 5 "")

/-- The power reading carried by a line (`fields[6]`). -/
def linePower (line : String) : ℚ := parseFloat ((lineFields line).getD 6 "")

/-- A raw sample line for device `id` as the scanner delivers it to the
parser: it contains no newline and splits into at least 7 comma-space
fields, the first being `id`. -/
def wfSampleLine (id line : String) : Prop :=
  goSplit line "\n" = [line] ∧ 7 ≤ (lineFields line).length ∧ lineId line = id

instance (id line : String) : Decidable (wfSampleLine id line) := by
  unfold wfSampleLine; infer_instance

/-- N successive collection passes feeding the nvidia parser one scanned
line each, as `gpuCollector.collect` does. -/
def feedNvidia (tg : Bool) (m : GpuDataMap) (ls : List String) : GpuDataMap :=
  ls.foldl (fun acc l => (parseNvidiaData tg acc l).2) m

/-! ### Registry lemmas -/

theorem mapLookup_append_self (m : GpuDataMap) (id : String) (d : GPUData)
    (h : mapLookup m id = none) : mapLookup (m ++ [(id, d)]) id = some d := by
  induction m with
  | nil => simp [mapLookup]
  | cons p ps ih =>
    simp only [mapLookup] at h
    by_cases hp : p.1 = id
    · simp [hp] at h
    · simp only [List.cons_append, mapLookup, hp, if_false]
      exact ih (by simpa [hp] using h)

theorem mapLookup_append_ne (m : GpuDataMap) (id id' : String) (d : GPUData)
    (h : id' ≠ id) : mapLookup (m ++ [(id, d)]) id' = mapLookup m id' := by
  induction m with
  | nil => simp [mapLookup, Ne.symm h]
  | cons p ps ih =>
    by_cases hp : p.1 = id' <;> simp [mapLookup, hp, ih]

theorem mapLookup_mapUpdate_self (m : GpuDataMap) (id : String) (f : GPUData → GPUData) :
    mapLookup (mapUpdate id f m) id = (mapLookup m id).map f := by
  induction m with
  | nil => rfl
  | cons p ps ih =>
    simp only [mapUpdate, List.map_cons] at *
    by_cases hp : p.1 = id <;> simp [mapLookup, hp, ih]

theorem mapLookup_mapUpdate_ne (m : GpuDataMap) (id id' : String) (f : GPUData → GPUData)
    (h : id' ≠ id) : mapLookup (mapUpdate id f m) id' = mapLookup m id' := by
  induction m with
  | nil => rfl
  | cons p ps ih =>
    simp only [mapUpdate, List.map_cons] at *
    by_cases hp : p.1 = id
    · simp [mapLookup, hp, Ne.symm h, ih]
    · by_cases hp' : p.1 = id' <;> simp [mapLookup, hp, hp', h, ih]

theorem mapLookup_map (f : String → GPUData → GPUData) (m : GpuDataMap) (id : String) :
    mapLookup (m.map (fun p => (p.1, f p.1 p.2))) id = (mapLookup m id).map (f id) := by
  induction m with
  | nil => rfl
  | cons p ps ih =>
    simp only [List.map_cons]
    by_cases hp : p.1 = id
    · subst hp; simp [mapLookup]
    · simp [mapLookup, hp, ih]

/-! ### Rounding and averaging lemmas -/

theorem twoDecimals_idem (x : ℚ) : twoDecimals (twoDecimals x) = twoDecimals x := by
  unfold twoDecimals
  rw [div_mul_cancel₀ _ (by norm_num : (100 : ℚ) ≠ 0), round_intCast]

theorem gpuAverage_Name (g : GPUData) : (gpuAverage g).Name = g.Name := rfl

theorem gpuAverage_idem (g : GPUData) : gpuAverage (gpuAverage g) = gpuAverage g := by
  unfold gpuAverage
  ext <;> simp [twoDecimals_idem]

theorem countName_gpuAverage (m : GpuDataMap) (n : String) :
    countName (m.map fun p => (p.1, gpuAverage p.2)) n = countName m n := by
  induction m with
  | nil => rfl
  | cons p ps ih =>
    simp only [countName, List.map_cons, List.filter_cons] at *
    have : ((gpuAverage p.2).Name == n) = (p.2.Name == n) := rfl
    rw [this]
    cases hb : (p.2.Name == n) <;> simp [hb, ih]

theorem mapLookup_GetCurrentData_fst (m : GpuDataMap) (id : String) (g : GPUData)
    (h : mapLookup m id = some g) :
    mapLookup (GetCurrentData m).1 id =
      some (if 1 < countName m g.Name then { gpuAverage g with Name := g.Name ++ " " ++ id }
            else gpuAverage g) := by
  have := mapLookup_map
    (fun i d =>
      if 1 < countName m d.Name then { gpuAverage d with Name := d.Name ++ " " ++ i }
      else gpuAverage d) m id
  unfold GetCurrentData
  rw [show (m.map (fun p =>
      (p.1, let gpuCopy := gpuAverage p.2;
            if 1 < countName m p.2.Name then { gpuCopy with Name := p.2.Name ++ " " ++ p.1 }
            else gpuCopy))) = (m.map (fun p =>
      (p.1, (fun i d =>
        if 1 < countName m d.Name then { gpuAverage d with Name := d.Name ++ " " ++ i }
        else gpuAverage d) p.1 p.2))) from rfl, this, h]
  rfl

theorem mapLookup_GetCurrentData_snd (m : GpuDataMap) (id : String) (g : GPUData)
    (h : mapLookup m id = some g) :
    mapLookup (GetCurrentData m).2 id = some (gpuAverage g) := by
  have := mapLookup_map (fun _ d => gpuAverage d) m id
  unfold GetCurrentData
  rw [show (m.map (fun p => (p.1, gpuAverage p.2))) =
      (m.map (fun p => (p.1, (fun _ d => gpuAverage d) p.1 p.2))) from rfl, this, h]
  rfl

/-! ### nvidia parser step lemmas -/

theorem parseNvidiaData_step_existing (tg : Bool) (m : GpuDataMap) (line : String) (g : GPUData)
    (hnl : goSplit line "\n" = [line]) (h7 : 7 ≤ (lineFields line).length)
    (hex : mapLookup m (lineId line) = some g) :
    parseNvidiaData tg m line =
      (true, mapUpdate (lineId line)
        (applyNvidiaSample (parseFloat ((lineFields line).getD 2 ""))
          (parseFloat ((lineFields line).getD 3 ""))
          (parseFloat ((lineFields line).getD 4 ""))
          (lineUsage line) (linePower line)) m) := by
  unfold parseNvidiaData
  rw [hnl]
  simp only [lineFields, lineId, lineUsage, linePower] at *
  simp only [parseNvidiaLines]
  rw [if_neg (Nat.not_lt.mpr h7), hex]

theorem parseNvidiaData_step_fresh (m : GpuDataMap) (line : String)
    (hnl : goSplit line "\n" = [line]) (h7 : 7 ≤ (lineFields line).length)
    (hnone : mapLookup m (lineId line) = none) :
    parseNvidiaData false m line =
      (true, mapUpdate (lineId line)
        (applyNvidiaSample (parseFloat ((lineFields line).getD 2 ""))
          (parseFloat ((lineFields line).getD 3 ""))
          (parseFloat ((lineFields line).getD 4 ""))
          (lineUsage line) (linePower line))
        (m ++ [(lineId line, newGPU (cleanNvidiaName ((lineFields line).getD 1 "")))])) := by
  unfold parseNvidiaData
  rw [hnl]
  simp only [lineFields, lineId, lineUsage, linePower] at *
  simp only [parseNvidiaLines]
  rw [if_neg (Nat.not_lt.mpr h7), hnone]
  simp

theorem parseNvidiaData_step_fresh_tegra (m : GpuDataMap) (line : String)
    (hnl : goSplit line "\n" = [line]) (h7 : 7 ≤ (lineFields line).length)
    (hnone : mapLookup m (lineId line) = none) :
    parseNvidiaData true m line =
      (false, m ++ [(lineId line, newGPU (cleanNvidiaName ((lineFields line).getD 1 "")))]) := by
  unfold parseNvidiaData
  rw [hnl]
  simp only [lineFields, lineId] at *
  simp only [parseNvidiaLines]
  rw [if_neg (Nat.not_lt.mpr h7), hnone]
  simp

theorem parseNvidia_existing_effect (m : GpuDataMap) (line id : String) (g : GPUData)
    (hwf : wfSampleLine id line) (h : mapLookup m id = some g) :
    ∃ g', mapLookup (parseNvidiaData false m line).2 id = some g' ∧
      g'.Usage = g.Usage + lineUsage line ∧ g'.Power = g.Power + linePower line ∧
      g'.Count = g.Count + 1 := by
  obtain ⟨hnl, h7, hid⟩ := hwf
  have hstep := parseNvidiaData_step_existing false m line g hnl h7 (by rw [hid]; exact h)
  have h2 : (parseNvidiaData false m line).2 =
      mapUpdate (lineId line)
        (applyNvidiaSample (parseFloat ((lineFields line).getD 2 ""))
          (parseFloat ((lineFields line).getD 3 ""))
          (parseFloat ((lineFields line).getD 4 ""))
          (lineUsage line) (linePower line)) m := by rw [hstep]
  rw [h2, hid, mapLookup_mapUpdate_self, h]
  exact ⟨_, rfl, rfl, rfl, rfl⟩

theorem parseNvidia_fresh_effect (m : GpuDataMap) (line id : String)
    (hwf : wfSampleLine id line) (hnone : mapLookup m id = none) :
    ∃ g', mapLookup (parseNvidiaData false m line).2 id = some g' ∧
      g'.Usage = lineUsage line ∧ g'.Power = linePower line ∧ g'.Count = 1 := by
  obtain ⟨hnl, h7, hid⟩ := hwf
  have hstep := parseNvidiaData_step_fresh m line hnl h7 (by rw [hid]; exact hnone)
  have h2 : (parseNvidiaData false m line).2 =
      mapUpdate (lineId line)
        (applyNvidiaSample (parseFloat ((lineFields line).getD 2 ""))
          (parseFloat ((lineFields line).getD 3 ""))
          (parseFloat ((lineFields line).getD 4 ""))
          (lineUsage line) (linePower line))
        (m ++ [(lineId line, newGPU (cleanNvidiaName ((lineFields line).getD 1 "")))]) := by
    rw [hstep]
  rw [h2, hid, mapLookup_mapUpdate_self, mapLookup_append_self m id _ hnone]
  refine ⟨_, rfl, ?_, ?_, rfl⟩ <;> simp [applyNvidiaSample, newGPU]

theorem feedNvidia_accum (id : String) (ls : List String) :
    ∀ (m : GpuDataMap) (g : GPUData), mapLookup m id = some g →
      (∀ l ∈ ls, wfSampleLine id l) →
      ∃ g', mapLookup (feedNvidia false m ls) id = some g' ∧
        g'.Usage = g.Usage + (ls.map lineUsage).sum ∧
        g'.Power = g.Power + (ls.map linePower).sum ∧
        g'.Count = g.Count + ls.length := by
  induction ls with
  | nil => exact fun m g h _ => ⟨g, h, by simp, by simp, by simp⟩
  | cons l ls ih =>
    intro m g h hwf
    obtain ⟨g1, hg1, hu1, hp1, hc1⟩ :=
      parseNvidia_existing_effect m l id g (hwf l (List.mem_cons_self l ls)) h
    obtain ⟨g', hg', hu, hp, hc⟩ :=
      ih (parseNvidiaData false m l).2 g1 hg1 (fun l' hl' => hwf l' (List.mem_cons_of_mem _ hl'))
    refine ⟨g', hg', ?_, ?_, ?_⟩
    · rw [hu, hu1]; simp [add_assoc]
    · rw [hp, hp1]; simp [add_assoc]
    · rw [hc, hc1]; simp; omega

theorem GetCurrentData_fst_averages (m : GpuDataMap) (id : String) (g : GPUData)
    (h : mapLookup m id = some g) :
    ∃ g', mapLookup (GetCurrentData m).1 id = some g' ∧
      g'.Usage = twoDecimals (g.Usage / (g.Count : ℚ)) ∧
      g'.Power = twoDecimals (g.Power / (g.Count : ℚ)) ∧ g'.Count = 1 := by
  refine ⟨_, mapLookup_GetCurrentData_fst m id g h, ?_, ?_, ?_⟩ <;>
    by_cases hc : 1 < countName m g.Name <;> simp [hc, gpuAverage]

/-! ### Sample-count invariant lemmas -/

theorem count_mapUpdate (l : GpuDataMap) (id : String) (F : GPUData → GPUData)
    (hF : ∀ g, 1 ≤ (F g).Count) (hl : ∀ p ∈ l, p.1 ≠ id → 1 ≤ p.2.Count) :
    ∀ p ∈ mapUpdate id F l, 1 ≤ p.2.Count := by
  intro p hp
  obtain ⟨q, hq, rfl⟩ := List.mem_map.1 hp
  by_cases h : q.1 = id
  · simpa [h] using hF q.2
  · simpa [h] using hl q hq h

theorem parseNvidiaLines_count (ls : List String) :
    ∀ (m : GpuDataMap) (valid : Bool), (∀ p ∈ m, 1 ≤ p.2.Count) →
      ∀ p ∈ (parseNvidiaLines false m valid ls).2, 1 ≤ p.2.Count := by
  induction ls with
  | nil => exact fun m valid hm => hm
  | cons l ls ih =>
    intro m valid hm
    simp only [parseNvidiaLines]
    split
    · exact ih m valid hm
    · split
      · split
        · next hfalse => simp at hfalse
        · refine ih _ true (count_mapUpdate _ _ _ (fun g => ?_) ?_)
          · simp [applyNvidiaSample]
          · intro p hp hne
            rcases List.mem_append.1 hp with hp | hp
            · exact hm p hp
            · simp at hp
              subst hp
              simp at hne
      · refine ih _ true (count_mapUpdate _ _ _ (fun g => ?_) (fun p hp _ => hm p hp))
        simp [applyNvidiaSample]

theorem jetsonUpdate_count (a : Option (String × String)) (b c d : Option String)
    (g : GPUData) : 1 ≤ (jetsonUpdate a b c d g).Count :=
  Nat.le_add_left 1 _

theorem jetsonParse_count (m : GpuDataMap) (out : String)
    (hm : ∀ p ∈ m, 1 ≤ p.2.Count) : ∀ p ∈ (jetsonParse m out).2, 1 ≤ p.2.Count := by
  cases h : mapLookup m "0" with
  | none =>
    have he : jetsonParse m out = (true, m) := by unfold jetsonParse; rw [h]
    rw [he]; exact hm
  | some g =>
    have he : jetsonParse m out = (true, mapUpdate "0"
        (jetsonUpdate (scanFirst matchRam out.toList) (scanFirst matchGr3d out.toList)
          (scanFirst matchTemp out.toList) (scanFirst matchPower out.toList)) m) := by
      unfold jetsonParse; rw [h]
    rw [he]
    exact count_mapUpdate _ _ _ (fun g' => jetsonUpdate_count _ _ _ _ g') (fun p hp _ => hm p hp)

theorem applyAmdSample_count (v : RocmSmiJson) (m : GpuDataMap)
    (hm : ∀ p ∈ m, 1 ≤ p.2.Count) : ∀ p ∈ applyAmdSample v m, 1 ≤ p.2.Count := by
  unfold applyAmdSample
  cases h : mapLookup m v.ID with
  | none =>
    refine count_mapUpdate _ _ _ (fun g => by simp) ?_
    intro p hp hne
    rcases List.mem_append.1 hp with hp | hp
    · exact hm p hp
    · simp at hp
      exact absurd (by rw [hp]) hne
  | some g => exact count_mapUpdate _ _ _ (fun g' => by simp) (fun p hp _ => hm p hp)

theorem parseAmdData_count (d : Option (List RocmSmiJson)) (m : GpuDataMap)
    (hm : ∀ p ∈ m, 1 ≤ p.2.Count) : ∀ p ∈ (parseAmdData d m).2, 1 ≤ p.2.Count := by
  cases d with
  | none => exact hm
  | some l =>
    by_cases hl : l.length = 0
    · have he : parseAmdData (some l) m = (false, m) := by
        simp only [parseAmdData]; rw [if_pos hl]
      rw [he]; exact hm
    · have he : parseAmdData (some l) m =
          (true, l.foldl (fun acc v => applyAmdSample v acc) m) := by
        simp only [parseAmdData]; rw [if_neg hl]
      rw [he]
      show ∀ p ∈ l.foldl (fun acc v => applyAmdSample v acc) m, 1 ≤ p.2.Count
      clear hl he
      induction l generalizing m with
      | nil => exact hm
      | cons v vs ih => exact ih (applyAmdSample v m) (applyAmdSample_count v m hm)

theorem parseIntelGpuTopData_count (d : Option IntelGpuTopJson) (name : String)
    (m : GpuDataMap) (hm : ∀ p ∈ m, 1 ≤ p.2.Count) :
    ∀ p ∈ (parseIntelGpuTopData d name m).2, 1 ≤ p.2.Count := by
  cases d with
  | none => exact hm
  | some info =>
    cases h : mapLookup m "0" with
    | none =>
      have he : (parseIntelGpuTopData (some info) name m).2 =
          mapUpdate "0" (fun gpu =>
            { gpu with
              Usage := gpu.Usage + (info.Engines.Render3D.Busy + info.Engines.Blitter.Busy +
                info.Engines.Video.Busy + info.Engines.VideoEnhance.Busy)
              Power := gpu.Power + (if info.Power.Package > info.Power.GPU then info.Power.Package
                else info.Power.GPU)
              Count := gpu.Count + 1 })
            (m ++ [("0", newGPU name)]) := by
        simp only [parseIntelGpuTopData]
        rw [h]
      rw [he]
      refine count_mapUpdate _ _ _ (fun g => by simp) ?_
      intro p hp hne
      rcases List.mem_append.1 hp with hp | hp
      · exact hm p hp
      · simp at hp
        exact absurd (by rw [hp]) hne
    | some g =>
      have he : (parseIntelGpuTopData (some info) name m).2 =
          mapUpdate "0" (fun gpu =>
            { gpu with
              Usage := gpu.Usage + (info.Engines.Render3D.Busy + info.Engines.Blitter.Busy +
                info.Engines.Video.Busy + info.Engines.VideoEnhance.Busy)
              Power := gpu.Power + (if info.Power.Package > info.Power.GPU then info.Power.Package
                else info.Power.GPU)
              Count := gpu.Count + 1 })
            m := by
        simp only [parseIntelGpuTopData]
        rw [h]
      rw [he]
      exact count_mapUpdate _ _ _ (fun g' => by simp) (fun p hp _ => hm p hp)

theorem GetCurrentData_snd_count (m : GpuDataMap) :
    ∀ p ∈ (GetCurrentData m).2, p.2.Count = 1 := by
  intro p hp
  obtain ⟨q, hq, rfl⟩ := List.mem_map.1 hp
  rfl

theorem GetCurrentData_fst_count (m : GpuDataMap) :
    ∀ p ∈ (GetCurrentData m).1, p.2.Count = 1 := by
  intro p hp
  obtain ⟨q, hq, rfl⟩ := List.mem_map.1 hp
  by_cases h : 1 < countName m q.2.Name <;> simp [h, gpuAverage]

/-! ### Concrete evaluation lemmas (shared by the scenario claims) -/

theorem eval_lineA :
    (parseNvidiaData false [] "0, NVIDIA RTX 4090, 45, 2048, 24576, 10, 30.0").2 =
      [("0", ⟨"RTX 4090", 45, 2000, 24000, 10, 30, 1⟩)] := by
  rw [parseNvidiaData_step_fresh [] _ (by decide) (by decide) (by decide)]
  norm_num +decide [mapUpdate, applyNvidiaSample, newGPU, cleanNvidiaName, lineFields, lineId,
    lineUsage, linePower, parseFloat, mebibytesInAMegabyte, trimLead, trimTrail,
    litMatch, goSplit, goTrimSpace, splitLoop,
    show natOfDigits ['4','5'] = 45 from by decide,
    show natOfDigits ['2','0','4','8'] = 2048 from by decide,
    show natOfDigits ['2','4','5','7','6'] = 24576 from by decide,
    show natOfDigits ['1','0'] = 10 from by decide,
    show natOfDigits ['3','0'] = 30 from by decide,
    show natOfDigits ['0'] = 0 from by decide]

theorem eval_snapshot_G1 :
    GetCurrentData [("0", (⟨"RTX 4090", 45, 2000, 24000, 10, 30, 1⟩ : GPUData))] =
      ([("0", ⟨"RTX 4090", 45, 2000, 24000, 10, 30, 1⟩)],
       [("0", ⟨"RTX 4090", 45, 2000, 24000, 10, 30, 1⟩)]) := by
  norm_num +decide [GetCurrentData, gpuAverage, countName, twoDecimals, round_eq]

theorem eval_lineB :
    (parseNvidiaData false [("0", (⟨"RTX 4090", 45, 2000, 24000, 10, 30, 1⟩ : GPUData))]
        "0, NVIDIA RTX 4090, 55, 2048, 24576, 20, 40.0").2 =
      [("0", ⟨"RTX 4090", 55, 2000, 24000, 30, 70, 2⟩)] := by
  have hex : mapLookup [("0", (⟨"RTX 4090", 45, 2000, 24000, 10, 30, 1⟩ : GPUData))]
      (lineId "0, NVIDIA RTX 4090, 55, 2048, 24576, 20, 40.0") =
      some ⟨"RTX 4090", 45, 2000, 24000, 10, 30, 1⟩ := by
    rw [show lineId "0, NVIDIA RTX 4090, 55, 2048, 24576, 20, 40.0" = "0" from by decide]
    simp [mapLookup]
  rw [parseNvidiaData_step_existing false _ _ _ (by decide) (by decide) hex]
  norm_num +decide [mapUpdate, applyNvidiaSample, lineFields, lineId,
    lineUsage, linePower, parseFloat, mebibytesInAMegabyte,
    litMatch, goSplit, goTrimSpace, splitLoop,
    show natOfDigits ['5','5'] = 55 from by decide,
    show natOfDigits ['2','0','4','8'] = 2048 from by decide,
    show natOfDigits ['2','4','5','7','6'] = 24576 from by decide,
    show natOfDigits ['2','0'] = 20 from by decide,
    show natOfDigits ['4','0'] = 40 from by decide,
    show natOfDigits ['0'] = 0 from by decide]

theorem eval_snapshot_G2 :
    GetCurrentData [("0", (⟨"RTX 4090", 55, 2000, 24000, 30, 70, 2⟩ : GPUData))] =
      ([("0", ⟨"RTX 4090", 55, 2000, 24000, 15, 35, 1⟩)],
       [("0", ⟨"RTX 4090", 55, 2000, 24000, 15, 35, 1⟩)]) := by
  norm_num +decide [GetCurrentData, gpuAverage, countName, twoDecimals, round_eq]

/-! ### Claim theorems -/

/-- C1 (amended): feeding the nvidia parser N well-formed sample lines
for a device, the snapshot returns `usage = round(sum/N, 2)` (likewise
power) when the entry was created by the first of those lines with no
intervening snapshot; in general the accumulated sums and counter carry
the entry's prior contents, so from an entry holding `(usage₀, count₀)`
the result is `round((usage₀ + sum)/(count₀ + N), 2)` — after a snapshot
the previous average is carried as one extra sample. -/
theorem snapshot_average_of_samples (id : String) (m : GpuDataMap) (ls : List String) :
    (∀ g : GPUData, mapLookup m id = some g → (∀ l ∈ ls, wfSampleLine id l) →
      ∃ g', mapLookup (GetCurrentData (feedNvidia false m ls)).1 id = some g' ∧
        g'.Usage = twoDecimals ((g.Usage + (ls.map lineUsage).sum) /
          ((g.Count : ℚ) + (ls.length : ℚ))) ∧
        g'.Power = twoDecimals ((g.Power + (ls.map linePower).sum) /
          ((g.Count : ℚ) + (ls.length : ℚ)))) ∧
    (mapLookup m id = none → ls ≠ [] → (∀ l ∈ ls, wfSampleLine id l) →
      ∃ g', mapLookup (GetCurrentData (feedNvidia false m ls)).1 id = some g' ∧
        g'.Usage = twoDecimals ((ls.map lineUsage).sum / (ls.length : ℚ)) ∧
        g'.Power = twoDecimals ((ls.map linePower).sum / (ls.length : ℚ))) := by
  constructor
  · intro g h hwf
    obtain ⟨G, hG, hu, hp, hc⟩ := feedNvidia_accum id ls m g h hwf
    obtain ⟨g', hg', hu', hp', -⟩ := GetCurrentData_fst_averages _ id G hG
    refine ⟨g', hg', ?_, ?_⟩
    · rw [hu', hu, hc]; congr 1; push_cast; ring
    · rw [hp', hp, hc]; congr 1; push_cast; ring
  · intro h hne hwf
    cases ls with
    | nil => exact absurd rfl hne
    | cons l ls' =>
      obtain ⟨g1, hg1, hu1, hp1, hc1⟩ :=
        parseNvidia_fresh_effect m l id (hwf l (List.mem_cons_self l ls')) h
      obtain ⟨G, hG, hu, hp, hc⟩ := feedNvidia_accum id ls' _ g1 hg1
        (fun l' hl' => hwf l' (List.mem_cons_of_mem _ hl'))
      obtain ⟨g', hg', hu', hp', -⟩ := GetCurrentData_fst_averages _ id G hG
      refine ⟨g', hg', ?_, ?_⟩
      · rw [hu', hu, hc, hu1, hc1]; congr 1
        simp only [List.map_cons, List.sum_cons, List.length_cons]; push_cast; ring
      · rw [hp', hp, hc, hp1, hc1]; congr 1
        simp only [List.map_cons, List.sum_cons, List.length_cons]; push_cast; ring

/-- Witness for C1 (amended): two fresh samples with usages 10 and 20
and powers 30 and 40 average to `round(30/2, 2)` and `round(70/2, 2)`. -/
theorem snapshot_average_of_samples_witness :
    (∀ l ∈ ["0, NVIDIA RTX 4090, 45, 2048, 24576, 10, 30.0",
            "0, NVIDIA RTX 4090, 55, 2048, 24576, 20, 40.0"], wfSampleLine "0" l) ∧
    (∃ g', mapLookup (GetCurrentData (feedNvidia false []
        ["0, NVIDIA RTX 4090, 45, 2048, 24576, 10, 30.0",
         "0, NVIDIA RTX 4090, 55, 2048, 24576, 20, 40.0"])).1 "0" = some g' ∧
      g'.Usage = twoDecimals ((["0, NVIDIA RTX 4090, 45, 2048, 24576, 10, 30.0",
          "0, NVIDIA RTX 4090, 55, 2048, 24576, 20, 40.0"].map lineUsage).sum /
        ((["0, NVIDIA RTX 4090, 45, 2048, 24576, 10, 30.0",
          "0, NVIDIA RTX 4090, 55, 2048, 24576, 20, 40.0"] : List String).length : ℚ)) ∧
      g'.Power = twoDecimals ((["0, NVIDIA RTX 4090, 45, 2048, 24576, 10, 30.0",
          "0, NVIDIA RTX 4090, 55, 2048, 24576, 20, 40.0"].map linePower).sum /
        ((["0, NVIDIA RTX 4090, 45, 2048, 24576, 10, 30.0",
          "0, NVIDIA RTX 4090, 55, 2048, 24576, 20, 40.0"] : List String).length : ℚ))) :=
  ⟨by decide,
    (snapshot_average_of_samples "0" []
      ["0, NVIDIA RTX 4090, 45, 2048, 24576, 10, 30.0",
       "0, NVIDIA RTX 4090, 55, 2048, 24576, 20, 40.0"]).2 rfl (by decide) (by decide)⟩

/-- C1 counterexample: after a snapshot (which resets `Count` to 1 while
carrying the previous average, here 10), exactly one new raw sample with
usage 20 accumulates; the claim as stated predicts
`round(20/1, 2) = 20`, but the snapshot returns 15 — the carried average
is averaged in as an extra sample. -/
theorem snapshot_average_after_reset_cex :
    (mapLookup (GetCurrentData ((parseNvidiaData false
        ((GetCurrentData ((parseNvidiaData false []
            "0, NVIDIA RTX 4090, 45, 2048, 24576, 10, 30.0").2)).2)
        "0, NVIDIA RTX 4090, 55, 2048, 24576, 20, 40.0").2)).1 "0").map GPUData.Usage
      = some 15 ∧
    twoDecimals (lineUsage "0, NVIDIA RTX 4090, 55, 2048, 24576, 20, 40.0" / 1) = 20 ∧
    (15 : ℚ) ≠ 20 := by
  refine ⟨?_, ?_, by norm_num⟩
  · rw [eval_lineA,
      show (GetCurrentData [("0", (⟨"RTX 4090", 45, 2000, 24000, 10, 30, 1⟩ : GPUData))]).2 =
        [("0", ⟨"RTX 4090", 45, 2000, 24000, 10, 30, 1⟩)] from by rw [eval_snapshot_G1],
      eval_lineB,
      show (GetCurrentData [("0", (⟨"RTX 4090", 55, 2000, 24000, 30, 70, 2⟩ : GPUData))]).1 =
        [("0", ⟨"RTX 4090", 55, 2000, 24000, 15, 35, 1⟩)] from by rw [eval_snapshot_G2]]
    simp [mapLookup]
  · have hl : lineUsage "0, NVIDIA RTX 4090, 55, 2048, 24576, 20, 40.0" = 20 := by
      simp only [lineUsage]
      rw [show (lineFields "0, NVIDIA RTX 4090, 55, 2048, 24576, 20, 40.0").getD 5 "" = "20"
        from by decide]
      norm_num +decide [parseFloat, show natOfDigits ['2','0'] = 20 from by decide]
    rw [hl]
    norm_num [twoDecimals, round_eq]

/-- C6: feeding the list/CSV parser the two scenario lines from an empty
registry (regex tool inactive) leaves the registry at temperature 55,
memoryUsed 2000, usage sum 30, power sum 70, sampleCount 2; the
subsequent snapshot returns usage 15 and power 35 and resets the entry's
sampleCount to 1. -/
theorem nvidia_two_line_scenario :
    (parseNvidiaData false
        ((parseNvidiaData false [] "0, NVIDIA RTX 4090, 45, 2048, 24576, 10, 30.0").2)
        "0, NVIDIA RTX 4090, 55, 2048, 24576, 20, 40.0").2 =
      [("0", ⟨"RTX 4090", 55, 2000, 24000, 30, 70, 2⟩)] ∧
    (GetCurrentData (parseNvidiaData false
        ((parseNvidiaData false [] "0, NVIDIA RTX 4090, 45, 2048, 24576, 10, 30.0").2)
        "0, NVIDIA RTX 4090, 55, 2048, 24576, 20, 40.0").2).1 =
      [("0", ⟨"RTX 4090", 55, 2000, 24000, 15, 35, 1⟩)] ∧
    (GetCurrentData (parseNvidiaData false
        ((parseNvidiaData false [] "0, NVIDIA RTX 4090, 45, 2048, 24576, 10, 30.0").2)
        "0, NVIDIA RTX 4090, 55, 2048, 24576, 20, 40.0").2).2 =
      [("0", ⟨"RTX 4090", 55, 2000, 24000, 15, 35, 1⟩)] := by
  rw [eval_lineA, eval_lineB, eval_snapshot_G2]
  exact ⟨rfl, rfl, rfl⟩

/-- C2: for every registry state, calling the snapshot operation twice
with no samples arriving in between returns identical per-device values
both times: the first call leaves every entry holding its previous
average with `Count` reset to 1, so the second call's division by 1 and
re-rounding of already-rounded values changes nothing. -/
theorem snapshot_twice_identical (m : GpuDataMap) :
    (GetCurrentData (GetCurrentData m).2).1 = (GetCurrentData m).1 := by
  unfold GetCurrentData
  simp only [List.map_map]
  congr 1
  funext p
  simp only [Function.comp_apply]
  rw [countName_gpuAverage m]
  simp [gpuAverage_idem, gpuAverage_Name]

/-- C9: the snapshot operation appends the device id to a device's name
(as "name id") in the returned copy exactly when two or more registry
entries share that reported name, and the registry entry left behind
keeps its original undecorated name. -/
theorem snapshot_name_disambiguation (m : GpuDataMap) (id : String) (g : GPUData)
    (h : mapLookup m id = some g) :
    (∃ g1, mapLookup (GetCurrentData m).1 id = some g1 ∧
        g1.Name = (if 1 < countName m g.Name then g.Name ++ " " ++ id else g.Name)) ∧
    (∃ g2, mapLookup (GetCurrentData m).2 id = some g2 ∧ g2.Name = g.Name) := by
  refine ⟨⟨_, mapLookup_GetCurrentData_fst m id g h, ?_⟩,
    ⟨_, mapLookup_GetCurrentData_snd m id g h, rfl⟩⟩
  by_cases hc : 1 < countName m g.Name <;> simp [hc, gpuAverage_Name]

/-- Witness for C9: two devices named "X" with ids "0" and "1" come back
as "X 0" (shown for id "0"), while the uniquely named "Y" device keeps
its name. -/
theorem snapshot_name_disambiguation_witness :
    (∃ g1, mapLookup
        (GetCurrentData [("0", newGPU "X"), ("1", newGPU "X"), ("2", newGPU "Y")]).1 "0" =
          some g1 ∧ g1.Name = "X 0") ∧
    (∃ g2, mapLookup
        (GetCurrentData [("0", newGPU "X"), ("1", newGPU "X"), ("2", newGPU "Y")]).1 "2" =
          some g2 ∧ g2.Name = "Y") := by
  constructor
  · obtain ⟨⟨g1, h1, h2⟩, -⟩ := snapshot_name_disambiguation
      [("0", newGPU "X"), ("1", newGPU "X"), ("2", newGPU "Y")] "0" (newGPU "X") (by decide)
    exact ⟨g1, h1, by rw [h2]; decide⟩
  · obtain ⟨⟨g2, h1, h2⟩, -⟩ := snapshot_name_disambiguation
      [("0", newGPU "X"), ("1", newGPU "X"), ("2", newGPU "Y")] "2" (newGPU "Y") (by decide)
    exact ⟨g2, h1, by rw [h2]; decide⟩

/-- C3 (divergence evidence): a collection pass whose parser reports no
valid data on the first line — here the nvidia parser with tegrastats
active meeting a brand-new device — returns `errNoValidData` immediately
with the wait flag `false`: `cmd.Wait` is not reached on the early-abort
path. By contrast, on the fully drained path the process's exit status
is surfaced as `exitError`, an error kind distinct from the stream and
parse error kinds, and there the wait flag is `true`. -/
theorem collect_no_wait_on_early_abort :
    collect (parseNvidiaData true)
      { startOk := true, lines := ["0, NVIDIA RTX 4090, 45, 2048, 24576, 10, 30.0"],
        scanErr := false, waitOk := true } [] =
      (CollectResult.noValidData, [("0", newGPU "RTX 4090")], false) ∧
    collect (parseNvidiaData true)
      { startOk := true, lines := [], scanErr := false, waitOk := false } [] =
      (CollectResult.exitError, [], true) ∧
    CollectResult.exitError ≠ CollectResult.noValidData ∧
    CollectResult.exitError ≠ CollectResult.streamError := by
  refine ⟨?_, by decide, by decide, by decide⟩
  decide

/-- C4 counterexample: with tegrastats active, the nvidia parser's
terminating pass creates registry entry "0" whose `Count` is 0 — so
"sampleCount ≥ 1 from the moment the entry is created" is false, and a
snapshot taken in that window would divide by a zero sample count. -/
theorem sampleCount_zero_entry_cex :
    (parseNvidiaData true [] "0, NVIDIA RTX 4090, 45, 2048, 24576, 10, 30.0").1 = false ∧
    (mapLookup (parseNvidiaData true [] "0, NVIDIA RTX 4090, 45, 2048, 24576, 10, 30.0").2
        "0").map GPUData.Count = some 0 := by
  decide

/-- C4 (amended): every parse pass that can return success preserves the
invariant that all registry entries have `Count ≥ 1` — the nvidia parser
with the regex tool inactive, the tegrastats parser, the rocm parser and
the intel parser all increment the counter of an entry in the same pass
that creates it — and the snapshot operation resets every entry's count
to exactly 1; the sole exception is an entry created by the nvidia
parser while tegrastats is active, which is left at count 0 by that
failing pass. -/
theorem sampleCount_ge_one_invariant (m : GpuDataMap) :
    ((∀ p ∈ m, 1 ≤ p.2.Count) → ∀ (out : String),
      ∀ p ∈ (parseNvidiaData false m out).2, 1 ≤ p.2.Count) ∧
    ((∀ p ∈ m, 1 ≤ p.2.Count) → ∀ (out : String),
      ∀ p ∈ (jetsonParse m out).2, 1 ≤ p.2.Count) ∧
    ((∀ p ∈ m, 1 ≤ p.2.Count) → ∀ (d : Option (List RocmSmiJson)),
      ∀ p ∈ (parseAmdData d m).2, 1 ≤ p.2.Count) ∧
    ((∀ p ∈ m, 1 ≤ p.2.Count) → ∀ (d : Option IntelGpuTopJson) (name : String),
      ∀ p ∈ (parseIntelGpuTopData d name m).2, 1 ≤ p.2.Count) ∧
    (∀ p ∈ (GetCurrentData m).2, p.2.Count = 1) ∧
    (∀ p ∈ (GetCurrentData m).1, p.2.Count = 1) :=
  ⟨fun hm out => parseNvidiaLines_count (goSplit out "\n") m false hm,
   fun hm out => jetsonParse_count m out hm,
   fun hm d => parseAmdData_count d m hm,
   fun hm d name => parseIntelGpuTopData_count d name m hm,
   GetCurrentData_snd_count m,
   GetCurrentData_fst_count m⟩

/-- Witness for C4 (amended): a concrete one-entry registry with count 1
keeps counts ≥ 1 through an nvidia pass and through an intel pass, and
snapshot resets to 1. -/
theorem sampleCount_ge_one_invariant_witness :
    (∀ p ∈ (parseNvidiaData false [("0", ⟨"RTX 4090", 45, 2000, 24000, 10, 30, 1⟩)]
        "0, NVIDIA RTX 4090, 55, 2048, 24576, 20, 40.0").2, 1 ≤ p.2.Count) ∧
    (∀ p ∈ (parseIntelGpuTopData (some ⟨⟨5, 10⟩, ⟨⟨30⟩, ⟨1⟩, ⟨2⟩, ⟨3⟩⟩⟩) "Intel GPU"
        [("0", ⟨"RTX 4090", 45, 2000, 24000, 10, 30, 1⟩)]).2, 1 ≤ p.2.Count) ∧
    (∀ p ∈ (GetCurrentData [("0", (⟨"RTX 4090", 45, 2000, 24000, 10, 30, 1⟩ : GPUData))]).2,
      p.2.Count = 1) :=
  ⟨(sampleCount_ge_one_invariant [("0", ⟨"RTX 4090", 45, 2000, 24000, 10, 30, 1⟩)]).1
      (by decide) "0, NVIDIA RTX 4090, 55, 2048, 24576, 20, 40.0",
   (sampleCount_ge_one_invariant [("0", ⟨"RTX 4090", 45, 2000, 24000, 10, 30, 1⟩)]).2.2.2.1
      (by decide) (some ⟨⟨5, 10⟩, ⟨⟨30⟩, ⟨1⟩, ⟨2⟩, ⟨3⟩⟩⟩) "Intel GPU",
   (sampleCount_ge_one_invariant [("0", ⟨"RTX 4090", 45, 2000, 24000, 10, 30, 1⟩)]).2.2.2.2.1⟩

/-- C5: with the tegrastats tool active, the nvidia parser fed a line
carrying a device id not yet in the registry appends a name-only entry
(every metric field zero, count zero) and returns pass failure; in the
collector loop `errNoValidData` is the one result that terminates the
collector permanently, so the list/CSV tool contributes only the device
name while the metrics of id "0" are left to the regex/text tool. -/
theorem nvidia_tegrastats_coupling (m : GpuDataMap) (line : String)
    (hnl : goSplit line "\n" = [line]) (h7 : 7 ≤ (lineFields line).length)
    (hnone : mapLookup m (lineId line) = none) :
    parseNvidiaData true m line =
      (false, m ++ [(lineId line, newGPU (cleanNvidiaName ((lineFields line).getD 1 "")))]) ∧
    startStep CollectResult.noValidData = StartAction.terminate ∧
    (∀ rs : List CollectResult, startRun (CollectResult.noValidData :: rs) = true) :=
  ⟨parseNvidiaData_step_fresh_tegra m line hnl h7 hnone, rfl, fun _ => rfl⟩

/-- Witness for C5: the scenario line meets the hypotheses from the empty
registry, producing the name-only entry and pass failure. -/
theorem nvidia_tegrastats_coupling_witness :
    parseNvidiaData true [] "0, NVIDIA RTX 4090, 45, 2048, 24576, 10, 30.0" =
      (false, [("0", newGPU "RTX 4090")]) ∧
    startStep CollectResult.noValidData = StartAction.terminate := by
  obtain ⟨h1, h2, -⟩ := nvidia_tegrastats_coupling []
    "0, NVIDIA RTX 4090, 45, 2048, 24576, 10, 30.0" (by decide) (by decide) (by decide)
  refine ⟨?_, h2⟩
  rw [h1]
  decide

/-- C7: the rocm parser returns failure and leaves the registry
completely unchanged whenever the JSON decode fails or decodes to an
empty map. -/
theorem amd_decode_failure_no_mutation (m : GpuDataMap) (d : Option (List RocmSmiJson))
    (h : d = none ∨ d = some []) : parseAmdData d m = (false, m) := by
  rcases h with rfl | rfl <;> rfl

/-- Witness for C7: a decode error against a non-empty registry returns
failure with the registry intact. -/
theorem amd_decode_failure_no_mutation_witness :
    parseAmdData none [("0", newGPU "X")] = (false, [("0", newGPU "X")]) :=
  amd_decode_failure_no_mutation [("0", newGPU "X")] none (Or.inl rfl)

/-- C8: if registry entry "0" does not exist, the tegrastats parser is a
no-op success (so its collector keeps retrying rather than terminating);
it always returns success; and it never touches any entry other than id
"0". -/
theorem jetson_missing_entry_noop :
    (∀ (m : GpuDataMap) (out : String), mapLookup m "0" = none → jetsonParse m out = (true, m)) ∧
    (∀ (m : GpuDataMap) (out : String), (jetsonParse m out).1 = true) ∧
    (∀ (m : GpuDataMap) (out : String) (id : String), id ≠ "0" →
      mapLookup (jetsonParse m out).2 id = mapLookup m id) := by
  refine ⟨?_, ?_, ?_⟩
  · intro m out h
    unfold jetsonParse
    rw [h]
  · intro m out
    unfold jetsonParse
    cases h : mapLookup m "0" <;> rfl
  · intro m out id hid
    unfold jetsonParse
    cases h : mapLookup m "0" with
    | none => rfl
    | some g => exact mapLookup_mapUpdate_ne m "0" id _ hid

/-- Witness for C8: from an empty registry a full tegrastats line is a
no-op success, and with entry "0" present entry "1" is untouched. -/
theorem jetson_missing_entry_noop_witness :
    jetsonParse [] "RAM 3204/7772MB GR3D_FREQ 45% tj@45.5C GPU_SOC 2000mW" = (true, []) ∧
    mapLookup (jetsonParse [("0", newGPU "Orin"), ("1", newGPU "Other")] "GR3D_FREQ 45%").2 "1" =
      mapLookup [("0", newGPU "Orin"), ("1", newGPU "Other")] "1" :=
  ⟨jetson_missing_entry_noop.1 [] "RAM 3204/7772MB GR3D_FREQ 45% tj@45.5C GPU_SOC 2000mW" rfl,
   jetson_missing_entry_noop.2.2 [("0", newGPU "Orin"), ("1", newGPU "Other")]
     "GR3D_FREQ 45%" "1" (by decide)⟩

/-- C10: under the unbounded-retry policy of `gpuCollector.start`, a nil
pass result loops immediately; the loop terminates exactly on
`errNoValidData`; every other error sleeps and retries; over a trace the
collector has terminated iff some pass returned `errNoValidData`; and no
number of other failures terminates it. -/
theorem start_retry_policy :
    (∀ r : CollectResult, startStep r = StartAction.terminate ↔ r = CollectResult.noValidData) ∧
    startStep CollectResult.ok = StartAction.loopNow ∧
    (∀ r : CollectResult, r ≠ CollectResult.ok → r ≠ CollectResult.noValidData →
      startStep r = StartAction.sleepRetry) ∧
    (∀ rs : List CollectResult, startRun rs = true ↔ CollectResult.noValidData ∈ rs) ∧
    (∀ n : Nat, startRun (List.replicate n CollectResult.streamError) = false) := by
  refine ⟨?_, rfl, ?_, ?_, ?_⟩
  · intro r; cases r <;> simp [startStep]
  · intro r h1 h2; cases r <;> simp_all [startStep]
  · intro rs
    induction rs with
    | nil => simp [startRun]
    | cons r rs ih => cases r <;> simp [startRun, startStep, ih]
  · intro n
    induction n with
    | zero => rfl
    | succ n ih => simpa [List.replicate, startRun, startStep] using ih

/-- Witness for C10: a stream error sleeps and retries; a trace ending in
`errNoValidData` terminates; three consecutive stream errors do not. -/
theorem start_retry_policy_witness :
    startStep CollectResult.streamError = StartAction.sleepRetry ∧
    (startRun [CollectResult.streamError, CollectResult.noValidData] = true ↔
      CollectResult.noValidData ∈ [CollectResult.streamError, CollectResult.noValidData]) ∧
    startRun (List.replicate 3 CollectResult.streamError) = false :=
  ⟨start_retry_policy.2.2.1 CollectResult.streamError (by decide) (by decide),
   start_retry_policy.2.2.2.1 [CollectResult.streamError, CollectResult.noValidData],
   start_retry_policy.2.2.2.2 3⟩

end Beszel
